import Mathlib

/-!
Verification development for the Nexis agent backend.

The backend source file src/server/agent.ts contains two server variants:
a multi-chain agent (lines 1-953, class MultiChainTools, LangGraph dispatch
loop) and an earlier variant (lines 955-1534, class BlockchainTools, the
CHAINS registry with validateChain, TransferTokensTool, and a plain
invokeAgent without a graph).  We embed the first under namespace
MultiChain and the second under namespace SingleChain, keeping the source
names where Lean allows it.  External collaborators (the language model,
RPC providers, the price API, key-derivation cryptography, string
formatting of numbers) are passed in as explicit function parameters, in
line with the specification treating them as opaque.
-/

namespace Nexis

/-- Word character test used to model the JavaScript regex word boundary. -/
def isWordChar (c : Char) : Bool := c.isAlphanum || c = '_'

/-- Model of JavaScript toLowerCase for the ASCII strings this system
handles. -/
def lowerStr (s : String) : String := String.mk (s.data.map Char.toLower)

/-- Model of JavaScript toUpperCase for the ASCII strings this system
handles. -/
def upperStr (s : String) : String := String.mk (s.data.map Char.toUpper)

/-- Leading and trailing whitespace removal, as Number() performs on its
argument. -/
def trimStr (s : String) : String :=
  String.mk (((s.data.dropWhile Char.isWhitespace).reverse.dropWhile Char.isWhitespace).reverse)

/-- Does s start with p. -/
def strStartsWith (s p : String) : Bool := s.data.take p.data.length == p.data

/-- Drop the first n characters of s. -/
def dropStr (n : Nat) (s : String) : String := String.mk (s.data.drop n)

/-- Split at every occurrence of the separator character, keeping empty
segments, as JavaScript split does. -/
def splitOnChar (sep : Char) : List Char → List (List Char)
  | [] => [[]]
  | c :: cs =>
      if c = sep then [] :: splitOnChar sep cs
      else
        match splitOnChar sep cs with
        | [] => [[c]]
        | g :: gs => (c :: g) :: gs

/-- splitOnChar on strings. -/
def splitStr (sep : Char) (s : String) : List String :=
  (splitOnChar sep s.data).map String.mk

/-- Join a list of strings with a separator, as Array join does. -/
def intercalateStr (sep : String) : List String → String
  | [] => ""
  | [x] => x
  | x :: xs => x ++ sep ++ intercalateStr sep xs

/-- Parse a string of decimal digits into a number; the empty string parses
to 0 (as in JavaScript) and any non-digit character makes the parse fail. -/
def digitsToNat? (s : String) : Option Nat :=
  s.data.foldl
    (fun acc c => acc.bind (fun n => if c.isDigit then some (n * 10 + (c.toNat - 48)) else none))
    (some 0)

/-- Model of JavaScript Number(s) restricted to plain decimal strings:
optional sign, digits, optional fractional part.  Returns none for NaN.
Whitespace is trimmed and the empty string converts to 0, as in
JavaScript.  Exponent, hexadecimal and Infinity syntax is not modelled;
no input used in this development needs it. -/
def jsNumber (s : String) : Option Rat :=
  let t := trimStr s
  if t = "" then some 0
  else
    let sign : Int := if strStartsWith t "-" then -1 else 1
    let u := if strStartsWith t "-" || strStartsWith t "+" then dropStr 1 t else t
    match splitStr '.' u with
    | [w] =>
        if w = "" then none
        else (digitsToNat? w).map (fun n => (sign * (n : Int) : Rat))
    | [w, f] =>
        if w = "" && f = "" then none
        else
          match digitsToNat? w, digitsToNat? f with
          | some wn, some fn =>
              some ((sign : Rat) * ((wn : Rat) + (fn : Rat) / ((10 : Rat) ^ f.data.length)))
          | _, _ => none
    | _ => none

/-- Model of ethers.isAddress: a 0x-prefixed string of 40 hexadecimal
digits.  ethers accepts a uniform-case hex string outright and checks the
EIP-55 checksum for mixed-case input; the keccak-based checksum branch is
not modelled, so this model accepts only uniform-case addresses.  Every
address appearing in this development is uniform-case, and every malformed
input rejected here is rejected by ethers as well. -/
def isAddress (s : String) : Bool :=
  let hexPart := dropStr 2 s
  strStartsWith s "0x" && s.data.length = 42
    && hexPart.data.all (fun c => c.isDigit || ('a' ≤ c && c ≤ 'f') || ('A' ≤ c && c ≤ 'F'))
    && (hexPart.data.all (fun c => !c.isUpper) || hexPart.data.all (fun c => !c.isLower))

/-- Model of ethers.parseEther (parseUnits with 18 decimals): an optional
minus sign, an integer part and an optional fractional part of at most 18
digits, converted to an integer amount of wei.  Returns none where ethers
throws. -/
def parseEther (value : String) : Option Int :=
  let neg := strStartsWith value "-"
  let rest := if neg then dropStr 1 value else value
  let sign : Int := if neg then -1 else 1
  match splitStr '.' rest with
  | [w] =>
      if w = "" then none
      else (digitsToNat? w).map (fun n => sign * (n : Int) * (10 : Int) ^ (18 : Nat))
  | [w, f] =>
      if (w = "" && f = "") || f.data.length > 18 then none
      else
        match digitsToNat? w, digitsToNat? f with
        | some wn, some fn =>
            some (sign * ((wn : Int) * (10 : Int) ^ (18 : Nat)
              + (fn : Int) * (10 : Int) ^ (18 - f.data.length)))
        | _, _ => none
  | _ => none

deriving instance DecidableEq for Except

/-- The outcome of a transfer-tool execution: either a user-facing reply
produced without touching the network, or the submission of a transaction
to the RPC provider (wallet.sendTransaction). -/
inductive TransferAction where
  | reply (msg : String)
  | sendTransaction (chain toAddr : String) (valueWei : Int)
deriving Repr, DecidableEq

namespace SingleChain

/-- Native-currency metadata of the second server variant (src/server/agent.ts:1015-1020). -/
structure NativeCurrency where
  name : String
  symbol : String
  decimals : Nat
deriving Repr, DecidableEq, Inhabited

/-- ChainConfig of the second server variant (src/server/agent.ts:1009-1020). -/
structure ChainConfig where
  chainId : Nat
  name : String
  rpcUrl : String
  explorerUrl : String
  faucetUrl : Option String
  nativeCurrency : NativeCurrency
deriving Repr, DecidableEq, Inhabited

/-- The CHAINS registry (src/server/agent.ts:1022-1053), in registration
order.  The RPC URLs use the source defaults; the process.env overrides
change only the URL string and affect no claim. -/
def CHAINS : List (String × ChainConfig) :=
  [ ("ethereum",
     { chainId := 1, name := "Ethereum Mainnet",
       rpcUrl := "https://eth-mainnet.g.alchemy.com/v2/your-api-key",
       explorerUrl := "https://etherscan.io", faucetUrl := none,
       nativeCurrency := { name := "Ether", symbol := "ETH", decimals := 18 } }),
    ("monad",
     { chainId := 41454, name := "Monad Testnet",
       rpcUrl := "https://testnet-rpc.monad.xyz",
       explorerUrl := "https://monad-testnet.socialscan.io",
       faucetUrl := some "https://testnet.monad.xyz/",
       nativeCurrency := { name := "Monad", symbol := "MONAD", decimals := 18 } }),
    ("bsc",
     { chainId := 56, name := "Binance Smart Chain",
       rpcUrl := "https://bsc-dataseed1.binance.org",
       explorerUrl := "https://bscscan.com", faucetUrl := none,
       nativeCurrency := { name := "BNB", symbol := "BNB", decimals := 18 } }),
    ("baseSepolia",
     { chainId := 84532, name := "Base Sepolia",
       rpcUrl := "https://sepolia.base.org",
       explorerUrl := "https://sepolia.basescan.org",
       faucetUrl := some "https://www.coinbase.com/faucets/base-ethereum-sepolia-faucet",
       nativeCurrency := { name := "Ether", symbol := "ETH", decimals := 18 } }) ]

/-- Key lookup in the CHAINS object, CHAINS[key] in the source. -/
def chainsFind (key : String) : Option ChainConfig :=
  (CHAINS.find? (fun p => p.1 == key)).map Prod.snd

/-- The validateChain helper (src/server/agent.ts:1130-1136): lowercases
the key, then indexes CHAINS, throwing an error that lists the valid keys
when the lowercased key is absent. -/
def validateChain (chain : String) : Except String String :=
  let normalizedChain := lowerStr chain
  if (chainsFind normalizedChain).isSome then
    Except.ok normalizedChain
  else
    Except.error ("Chain \"" ++ chain ++ "\" not supported. Available chains: "
      ++ intercalateStr ", " (CHAINS.map Prod.fst))

/-- An ethers.Wallet: the supplied private key and the address derived
from it. -/
structure Wallet where
  privateKey : String
  address : String
deriving Repr, DecidableEq

/-- The mutable per-chain wallet map of class BlockchainTools
(src/server/agent.ts:1087-1127).  The providers map is built once in the
constructor from the fixed CHAINS registry and never changes, so it is
left implicit. -/
structure BlockchainTools where
  wallets : List (String × Wallet)
deriving Repr, DecidableEq

/-- BlockchainTools.getWallet (src/server/agent.ts:1105-1107). -/
def BlockchainTools.getWallet (t : BlockchainTools) (chain : String) : Option Wallet :=
  (t.wallets.find? (fun p => p.1 == chain)).map Prod.snd

/-- BlockchainTools.setWallet (src/server/agent.ts:1109-1114): binds a
wallet for one chain, leaving the other chains untouched. -/
def BlockchainTools.setWallet (t : BlockchainTools) (chain : String) (w : Wallet) :
    BlockchainTools :=
  { wallets := (chain, w) :: t.wallets.filter (fun p => p.1 != chain) }

/-- The amount test of TransferTokensTool._call (src/server/agent.ts:1285):
isNaN(Number(amount)) or Number(amount) less than or equal to zero. -/
def transferAmountInvalid (amount : String) : Bool :=
  match jsNumber amount with
  | none => true
  | some q => decide (q ≤ 0)

/-- TransferTokensTool._call (src/server/agent.ts:1277-1298).  A thrown
validateChain error propagates out of the tool (Except.error); every other
path returns a string or hands the transaction to the provider.  When both
validations pass but ethers.parseEther still throws (more than 18
decimals), the catch block converts the throw into the failure reply. -/
def TransferTokensTool.call (t : BlockchainTools) (chain toAddr amount : String) :
    Except String TransferAction :=
  match validateChain chain with
  | Except.error e => Except.error e
  | Except.ok validChain =>
    let chainConfig := (chainsFind validChain).getD (CHAINS.head?.getD ("", default)).2
    match t.getWallet validChain with
    | none => Except.ok (TransferAction.reply
        ("🚫 No wallet set for " ++ chainConfig.name
          ++ ". Please set a wallet using 'setWallet' first."))
    | some _ =>
      if !(isAddress toAddr) then
        Except.ok (TransferAction.reply ("❌ Invalid recipient address: " ++ toAddr))
      else if transferAmountInvalid amount then
        Except.ok (TransferAction.reply ("❌ Invalid amount: " ++ amount))
      else
        match parseEther amount with
        | some wei => Except.ok (TransferAction.sendTransaction validChain toAddr wei)
        | none => Except.ok (TransferAction.reply
            "❌ Failed to transfer tokens: invalid decimal value")

/-- The synonym table of the single-token GetTokenPriceTool
(src/server/agent.ts:1310-1316). -/
def tokenSynonyms : List (String × String) :=
  [("ETH", "ethereum"), ("BNB", "binancecoin"), ("MONAD", "monad"),
   ("USDC", "usd-coin"), ("USDT", "tether")]

/-- The coin id the single-token GetTokenPriceTool sends to the price API
(src/server/agent.ts:1317): the synonym of the uppercased ticker, falling
back to the lowercased ticker. -/
def getTokenPriceCoinId (token : String) : String :=
  match (tokenSynonyms.find? (fun p => p.1 == upperStr token)).map Prod.snd with
  | some coinId => coinId
  | none => lowerStr token

/-- The chain keywords of the agentHandler regex (src/server/agent.ts:1496),
in alternation order. -/
def CHAIN_KEYWORDS : List String := ["ethereum", "monad", "bsc", "basesepolia"]

/-- First keyword of the alternation matching at the head of the character
list, with the trailing word boundary checked. -/
def keywordAt (s : List Char) : Option String :=
  CHAIN_KEYWORDS.findSome? (fun w =>
    if s.take w.length == w.data
        && (match s.drop w.length with
            | [] => true
            | c :: _ => !isWordChar c)
    then some w else none)

/-- Left-to-right scan for the regex (with the leading word boundary):
the boolean says whether the current position sits at a word boundary. -/
def scanKeyword : Bool → List Char → Option String
  | _, [] => none
  | atBoundary, c :: rest =>
      match (if atBoundary then keywordAt (c :: rest) else none) with
      | some w => some w
      | none => scanKeyword (!isWordChar c) rest

/-- Model of input.toLowerCase().match of the chain-keyword regex in
agentHandler (src/server/agent.ts:1496): the first matched keyword. -/
def chainKeywordMatch (s : String) : Option String := scanKeyword true s.data

/-- The contents of the HumanMessages agentHandler builds for a request
(src/server/agent.ts:1493-1501): when a private key is supplied (a truthy
string), a setWallet instruction holding the raw key is prepended to the
user input. -/
def agentHandlerMessages (input : String) (privateKey : Option String) : List String :=
  (match privateKey with
   | some pk =>
       if pk = "" then []
       else
         let chainMatch := chainKeywordMatch (lowerStr input)
         let defaultChain := chainMatch.getD "baseSepolia"
         ["setWallet " ++ pk ++ " " ++ defaultChain]
   | none => []) ++ [input]

/-- One lowercase hexadecimal digit. -/
def hexDigit (n : Nat) : Char :=
  if n < 10 then Char.ofNat (48 + n) else Char.ofNat (87 + n)

/-- JSON string escaping as performed by JSON.stringify. -/
def jsonEscapeChar (c : Char) : String :=
  if c = '"' then "\\\""
  else if c = '\\' then "\\\\"
  else if c = '\x08' then "\\b"
  else if c = '\x0C' then "\\f"
  else if c = '\n' then "\\n"
  else if c = '\r' then "\\r"
  else if c = '\t' then "\\t"
  else if c.toNat < 32 then
    "\\u00" ++ String.mk [hexDigit (c.toNat / 16), hexDigit (c.toNat % 16)]
  else String.singleton c

/-- JSON string escaping of a character list. -/
def jsonEscapeList : List Char → String
  | [] => ""
  | c :: cs => jsonEscapeChar c ++ jsonEscapeList cs

/-- JSON string escaping of a whole string. -/
def jsonEscape (s : String) : String := jsonEscapeList s.data

/-- JSON.stringify(xs, null, 2) for an array of strings. -/
def jsonStringifyIndent2 (xs : List String) : String :=
  match xs with
  | [] => "[]"
  | _ => "[\n"
      ++ intercalateStr ",\n" (xs.map (fun s => "  \"" ++ jsonEscape s ++ "\""))
      ++ "\n]"

/-- The string invokeAgent writes to the log on entry
(src/server/agent.ts:1452): the JSON serialization of every message
content it was handed. -/
def invokeAgentLoggedMessages (contents : List String) : String :=
  "invokeAgent messages: " ++ jsonStringifyIndent2 contents

end SingleChain

namespace MultiChain

/-- One entry of CHAIN_CONFIGS in the multi-chain variant
(src/server/agent.ts:24-78). -/
structure ChainConfig where
  name : String
  rpcUrl : String
  explorerUrl : String
  faucetUrl : String
  nativeCurrency : String
  chainId : Option Nat
  isTestnet : Bool
deriving Repr, DecidableEq, Inhabited

/-- The CHAIN_CONFIGS registry (src/server/agent.ts:24-78), in registration
order; solana is the single non-EVM entry.  The RPC URLs use the source
defaults; the process.env overrides change only the URL string and affect
no claim. -/
def CHAIN_CONFIGS : List (String × ChainConfig) :=
  [ ("monad",
     { name := "Monad Testnet", rpcUrl := "https://testnet-rpc.monad.xyz",
       explorerUrl := "https://monad-testnet.socialscan.io",
       faucetUrl := "https://testnet.monad.xyz/", nativeCurrency := "MONAD",
       chainId := some 41454, isTestnet := true }),
    ("ethereum",
     { name := "Ethereum Sepolia", rpcUrl := "https://sepolia.infura.io/v3/YOUR_INFURA_KEY",
       explorerUrl := "https://sepolia.etherscan.io",
       faucetUrl := "https://sepoliafaucet.com/", nativeCurrency := "ETH",
       chainId := some 11155111, isTestnet := true }),
    ("base",
     { name := "Base Sepolia", rpcUrl := "https://sepolia.base.org",
       explorerUrl := "https://sepolia-explorer.base.org",
       faucetUrl := "https://bridge.base.org/deposit", nativeCurrency := "ETH",
       chainId := some 84532, isTestnet := true }),
    ("polygon",
     { name := "Polygon Mumbai", rpcUrl := "https://rpc-mumbai.maticvigil.com/",
       explorerUrl := "https://mumbai.polygonscan.com",
       faucetUrl := "https://faucet.polygon.technology/", nativeCurrency := "MATIC",
       chainId := some 80001, isTestnet := true }),
    ("arbitrum",
     { name := "Arbitrum Sepolia", rpcUrl := "https://sepolia-rollup.arbitrum.io/rpc",
       explorerUrl := "https://sepolia.arbiscan.io",
       faucetUrl := "https://bridge.arbitrum.io/", nativeCurrency := "ETH",
       chainId := some 421614, isTestnet := true }),
    ("solana",
     { name := "Solana Devnet", rpcUrl := "https://api.devnet.solana.com",
       explorerUrl := "https://explorer.solana.com",
       faucetUrl := "https://faucet.solana.com/", nativeCurrency := "SOL",
       chainId := none, isTestnet := true }) ]

/-- Key lookup in the CHAIN_CONFIGS object. -/
def chainConfigsFind (key : String) : Option ChainConfig :=
  (CHAIN_CONFIGS.find? (fun p => p.1 == key)).map Prod.snd

/-- The solana entry of the registry. -/
def solanaConfig : ChainConfig := (chainConfigsFind "solana").getD default

/-- The EVM-family chain keys: every registry key except solana, in
registration order.  The constructor of MultiChainTools creates one
JsonRpcProvider for exactly these keys (src/server/agent.ts:97-107). -/
def evmChainKeys : List String :=
  (CHAIN_CONFIGS.map Prod.fst).filter (fun k => k != "solana")

/-- An ethers.Wallet bound by the store: the supplied private key and the
address derived from it. -/
structure Wallet where
  privateKey : String
  address : String
deriving Repr, DecidableEq

/-- A solana Keypair: the supplied secret and the derived public key in
base58 form. -/
structure SolKeypair where
  secretKey : String
  publicKey : String
deriving Repr, DecidableEq

/-- The mutable state of class MultiChainTools (src/server/agent.ts:91-168):
the per-chain EVM wallet map and the optional solana keypair.  The
provider maps are fixed at construction and never mutated, so they are
left implicit (evmChainKeys lists the chains holding a provider).  The
solana keypair field has type Keypair or null in the source, so the
non-EVM family holds at most one keypair by representation. -/
structure MultiChainTools where
  evmWallets : List (String × Wallet)
  solanaKeypair : Option SolKeypair
deriving Repr, DecidableEq

/-- The state of a freshly constructed MultiChainTools: both wallet stores
empty (src/server/agent.ts:92-95). -/
def MultiChainTools.init : MultiChainTools :=
  { evmWallets := [], solanaKeypair := none }

/-- MultiChainTools.getEvmWallet (src/server/agent.ts:113-115). -/
def MultiChainTools.getEvmWallet (t : MultiChainTools) (chain : String) : Option Wallet :=
  (t.evmWallets.find? (fun p => p.1 == chain)).map Prod.snd

/-- MultiChainTools.setEvmWallets (src/server/agent.ts:125-136): clears the
EVM wallet map, then binds a wallet built from the one supplied private
key to every non-solana chain that has a provider — that is, to every
EVM-family chain of the registry.  The key derivation performed by the
ethers.Wallet constructor is the parameter derive; when it fails (ethers
throws on an unparseable key) the map stays cleared and the error
propagates. -/
def MultiChainTools.setEvmWallets (derive : String → Option String)
    (t : MultiChainTools) (privateKey : String) : MultiChainTools × Option String :=
  let cleared : MultiChainTools := { t with evmWallets := [] }
  match derive privateKey with
  | none => (cleared, some "invalid private key")
  | some addr =>
      ({ cleared with
          evmWallets := evmChainKeys.map
            (fun c => (c, { privateKey := privateKey, address := addr })) }, none)

/-- MultiChainTools.setSolanaKeypair (src/server/agent.ts:138-154): parses
the key material (base58 or JSON numeric array, then Keypair.fromSecretKey
— abstracted as the parameter parse) and stores the single keypair; on
parse failure the state is unchanged and the wrapped error is thrown. -/
def MultiChainTools.setSolanaKeypair (parse : String → Option SolKeypair)
    (t : MultiChainTools) (privateKey : String) : MultiChainTools × Option String :=
  match parse privateKey with
  | none => (t, some "Invalid Solana private key format")
  | some kp => ({ t with solanaKeypair := some kp }, none)

/-- MultiChainTools.clearWallets (src/server/agent.ts:156-160): clears the
EVM wallet map and drops the solana keypair. -/
def MultiChainTools.clearWallets (_t : MultiChainTools) : MultiChainTools :=
  { evmWallets := [], solanaKeypair := none }

/-- MultiChainTools.getConnectedChains (src/server/agent.ts:162-167). -/
def MultiChainTools.getConnectedChains (t : MultiChainTools) : List String :=
  t.evmWallets.map Prod.fst ++ (if t.solanaKeypair.isSome then ["solana"] else [])

/-- DisconnectWalletTool._call (src/server/agent.ts:230-233): clears every
wallet and reports success. -/
def DisconnectWalletTool.call (t : MultiChainTools) : MultiChainTools × String :=
  (t.clearWallets, "All wallets disconnected successfully")

/-- The address lines GetWalletAddressTool._call collects
(src/server/agent.ts:246-263): one line per non-solana registry chain with
a bound wallet, in registry order, then the solana line if a keypair is
bound. -/
def getWalletAddressLines (t : MultiChainTools) : List String :=
  (CHAIN_CONFIGS.filterMap (fun e =>
    if e.1 == "solana" then none
    else (t.getEvmWallet e.1).map (fun w => e.2.name ++ ": " ++ w.address)))
  ++ (match t.solanaKeypair with
      | some kp => [solanaConfig.name ++ ": " ++ kp.publicKey]
      | none => [])

/-- GetWalletAddressTool._call (src/server/agent.ts:246-270). -/
def GetWalletAddressTool.call (t : MultiChainTools) : String :=
  let addresses := getWalletAddressLines t
  if addresses.length = 0 then
    "No wallets connected. Please connect your wallets first."
  else
    "Connected wallet addresses:\n" ++ intercalateStr "\n" addresses

/-- One line of the getAllBalances output; the rendering of the numeric
balance (ethers.formatEther, division by LAMPORTS_PER_SOL) is kept
structured rather than formatted to decimal text. -/
inductive BalanceLine where
  | evmBalance (chainName : String) (wei : Int) (currency : String)
  | solBalance (chainName : String) (lamports : Int)
  | fetchError (chainName : String)
deriving Repr, DecidableEq

/-- The balance lines GetAllBalancesTool._call collects
(src/server/agent.ts:283-313): for every non-solana registry chain with a
bound wallet, the provider balance of the wallet address (rpc) or a
per-line fetch-error marker; then the solana balance if a keypair is
bound. -/
def getAllBalancesLines (rpc : String → String → Except Unit Int)
    (solRpc : String → Except Unit Int) (t : MultiChainTools) : List BalanceLine :=
  (CHAIN_CONFIGS.filterMap (fun e =>
    if e.1 == "solana" then none
    else
      match t.getEvmWallet e.1 with
      | none => none
      | some w =>
          match rpc e.1 w.address with
          | Except.ok b => some (BalanceLine.evmBalance e.2.name b e.2.nativeCurrency)
          | Except.error _ => some (BalanceLine.fetchError e.2.name)))
  ++ (match t.solanaKeypair with
      | none => []
      | some kp =>
          match solRpc kp.publicKey with
          | Except.ok b => [BalanceLine.solBalance solanaConfig.name b]
          | Except.error _ => [BalanceLine.fetchError solanaConfig.name])

/-- GetAllBalancesTool._call (src/server/agent.ts:283-320): the no-wallet
message when no line was produced, the collected lines otherwise. -/
def GetAllBalancesTool.call (rpc : String → String → Except Unit Int)
    (solRpc : String → Except Unit Int) (t : MultiChainTools) :
    String ⊕ List BalanceLine :=
  let balances := getAllBalancesLines rpc solRpc t
  if balances.length = 0 then
    Sum.inl "No wallets connected. Please connect your wallets first."
  else Sum.inr balances

/-- The record the smartTransfer extraction model call produces
(src/server/agent.ts:338-363): each field is null when it could not be
determined. -/
structure ParsedTransfer where
  amount : Option String
  token : Option String
  chain : Option String
  recipient : Option String
deriving Repr, DecidableEq

/-- JavaScript falsiness of an optional string field: null or the empty
string. -/
def jsFalsy : Option String → Bool
  | none => true
  | some s => s == ""

/-- The chain-selection step of SmartTransferTool._call
(src/server/agent.ts:369-377): the lowercased extracted chain when truthy,
otherwise inferred from the token symbol, defaulting to ethereum. -/
def smartTransferTargetChain (chain token : Option String) : String :=
  let tc := match chain with
            | some c => lowerStr c
            | none => ""
  if tc != "" then tc
  else if (token.map upperStr) == some "SOL" then "solana"
  else if (token.map upperStr) == some "MONAD" then "monad"
  else if (token.map upperStr) == some "MATIC" then "polygon"
  else "ethereum"

/-- The execution step SmartTransferTool._call hands the parsed record to
(src/server/agent.ts:365-384). -/
inductive SmartTransferStep where
  | reply (msg : String)
  | solanaTransfer (recipient amount : String)
  | evmTransfer (chain recipient amount : String)
deriving Repr, DecidableEq

/-- SmartTransferTool._call after a successful extraction
(src/server/agent.ts:365-384): missing amount or recipient yields the
clarification reply; otherwise the transfer is dispatched to
transferSolana or transferEvm on the selected chain. -/
def SmartTransferTool.dispatch (p : ParsedTransfer) : SmartTransferStep :=
  if jsFalsy p.amount || jsFalsy p.recipient then
    SmartTransferStep.reply
      "Please specify both amount and recipient address in your instruction."
  else
    let targetChain := smartTransferTargetChain p.chain p.token
    if targetChain == "solana" then
      SmartTransferStep.solanaTransfer (p.recipient.getD "") (p.amount.getD "")
    else
      SmartTransferStep.evmTransfer targetChain (p.recipient.getD "") (p.amount.getD "")

/-- SmartTransferTool.transferEvm (src/server/agent.ts:392-413): checks the
wallet and the recipient address format, then submits
wallet.sendTransaction with value ethers.parseEther(amount).  There is no
positivity check on the amount.  When parseEther throws, the catch blocks
of transferEvm and _call turn the throw into the failure reply without a
network call. -/
def SmartTransferTool.transferEvm (t : MultiChainTools) (chain toAddr amount : String) :
    TransferAction :=
  match t.getEvmWallet chain with
  | none => TransferAction.reply
      ("No wallet connected for " ++ chain ++ ". Please connect your EVM wallet first.")
  | some _ =>
      if !(isAddress toAddr) then
        TransferAction.reply "Invalid recipient address provided."
      else
        match parseEther amount with
        | some wei => TransferAction.sendTransaction chain toAddr wei
        | none => TransferAction.reply
            ("Transfer failed: Failed to transfer on " ++ chain)

/-- The token list of GetTokenPriceTool._call (src/server/agent.ts:492):
the comma-separated input lowercased, split and trimmed. -/
def getTokenPricesTokenList (tokens : String) : List String :=
  (splitStr ',' (lowerStr tokens)).map trimStr

/-- The ids= query string of the one batched CoinGecko request
(src/server/agent.ts:493-496): the token list joined by commas, with no
synonym mapping applied. -/
def getTokenPricesRequestIds (tokens : String) : String :=
  intercalateStr "," (getTokenPricesTokenList tokens)

/-- One output line of getTokenPrices; the decimal rendering of the price
(toLocaleString) is kept structured.  The token is stored uppercased as
printed. -/
inductive PriceLine where
  | priced (token : String) (usd : Rat)
  | notFound (token : String)
deriving Repr, DecidableEq

/-- The per-token lines of GetTokenPriceTool._call
(src/server/agent.ts:503-511): api models response.data of the batched
request; a token whose price is absent (or zero, which is falsy) gets its
own not-found line. -/
def getTokenPricesLines (api : String → Option Rat) (tokens : String) : List PriceLine :=
  (getTokenPricesTokenList tokens).map (fun token =>
    match api token with
    | some price =>
        if price != 0 then PriceLine.priced (upperStr token) price
        else PriceLine.notFound (upperStr token)
    | none => PriceLine.notFound (upperStr token))

/-- One tool call requested by the model. -/
structure ToolCall where
  name : String
  args : String
deriving Repr, DecidableEq

/-- A conversation message; only assistant messages carry tool calls. -/
inductive Message where
  | system (content : String)
  | human (content : String)
  | ai (content : String) (toolCalls : List ToolCall)
  | tool (content : String)
deriving Repr, DecidableEq

/-- The tool calls a message carries; empty for every non-assistant
message. -/
def Message.toolCallsOf : Message → List ToolCall
  | Message.ai _ calls => calls
  | _ => []

/-- The two targets of the conditional edge out of the agent node. -/
inductive RouteDecision where
  | tools
  | finish
deriving Repr, DecidableEq

/-- shouldContinue (src/server/agent.ts:753-759): route to the tools node
exactly when the last message carries a nonempty tool_calls array,
otherwise END. -/
def shouldContinue (messages : List Message) : RouteDecision :=
  match messages.getLast? with
  | some (Message.ai _ toolCalls) =>
      if toolCalls.length > 0 then RouteDecision.tools else RouteDecision.finish
  | _ => RouteDecision.finish

/-- The observed outcome of running the compiled graph for a bounded
number of agent rounds. -/
inductive LoopResult where
  | finished (messages : List Message)
  | stillRunning (messages : List Message)
deriving Repr, DecidableEq

/-- The compiled workflow (src/server/agent.ts:762-776): agent node, then
the conditional edge of shouldContinue, the tool node appending one tool
message per requested call, and the edge back to the agent node.  The
model parameter is the opaque modelWithTools.invoke of callAgent (the
prepended system message folded into it); execTool is the tool execution.
The graph itself has no iteration bound: the fuel argument is only the
number of agent rounds we observe, and stillRunning means the loop has not
reached END within that many rounds. -/
def runWorkflow (model : List Message → Message) (execTool : ToolCall → String) :
    Nat → List Message → LoopResult
  | 0, messages => LoopResult.stillRunning messages
  | n + 1, messages =>
      let response := model messages
      let afterAgent := messages ++ [response]
      match shouldContinue afterAgent with
      | RouteDecision.finish => LoopResult.finished afterAgent
      | RouteDecision.tools =>
          runWorkflow model execTool n
            (afterAgent ++ response.toolCallsOf.map (fun tc => Message.tool (execTool tc)))

/-- The single session invariant of the claim list: every wallet in the
EVM map carries the same credential. -/
def evmSingleCredential (t : MultiChainTools) : Bool :=
  t.evmWallets.all (fun p =>
    t.evmWallets.all (fun q => p.2.privateKey == q.2.privateKey))

/-- The signers of the non-EVM family as a list: the optional solana
keypair. -/
def solanaSigners (t : MultiChainTools) : List SolKeypair :=
  t.solanaKeypair.toList

end MultiChain

/-!
Concrete stand-ins for the external collaborators (key derivation, RPC
providers, the price API, the language model), used by the witness and
counterexample statements.
-/

/-- A concrete private-key string (the well-known hardhat test key 1). -/
def demoPrivateKey : String :=
  "0x59c6995e998f97a5a0044966f0945389dc9e86dae88c7a8412f4603b6b78690d"

/-- A concrete derived address. -/
def demoAddress : String := "0x00000000000000000000000000000000000a11ce"

/-- A concrete well-formed recipient address (lowercase form of the burn
address). -/
def demoRecipient : String := "0x000000000000000000000000000000000000dead"

/-- A key-derivation stand-in that accepts every key. -/
def deriveDemo : String → Option String := fun _ => some demoAddress

/-- A solana keypair parser stand-in that accepts every secret. -/
def parseSolDemo : String → Option MultiChain.SolKeypair :=
  fun s => some { secretKey := s, publicKey := "So11111111111111111111111111111111111111112" }

/-- An RPC stand-in answering every balance query with one ether in wei. -/
def rpcDemo : String → String → Except Unit Int := fun _ _ => Except.ok 1000000000000000000

/-- A solana RPC stand-in answering every balance query with two SOL in
lamports. -/
def solRpcDemo : String → Except Unit Int := fun _ => Except.ok 2000000000

/-- The global wallet store after one request connected an EVM key: the
server holds a single MultiChainTools instance (src/server/agent.ts:686)
that every tool of every request shares. -/
def demoMultiTools : MultiChain.MultiChainTools :=
  (MultiChain.MultiChainTools.init.setEvmWallets deriveDemo demoPrivateKey).1

/-- A concrete ethers.Wallet value for the second variant. -/
def demoWallet : SingleChain.Wallet :=
  { privateKey := demoPrivateKey, address := demoAddress }

/-- A BlockchainTools state with wallets bound on ethereum and bsc. -/
def demoTools : SingleChain.BlockchainTools :=
  { wallets := [("ethereum", demoWallet), ("bsc", demoWallet)] }

/-- A model stub that requests the no-op help tool in every round. -/
def modelAlwaysTool : List MultiChain.Message → MultiChain.Message :=
  fun _ => MultiChain.Message.ai "" [{ name := "help", args := "" }]

/-- A tool-execution stub. -/
def execToolDemo : MultiChain.ToolCall → String := fun _ => "ok"

/-- A price API stub whose response carries only bitcoin. -/
def apiBitcoinOnly : String → Option Rat :=
  fun t => if t = "bitcoin" then some 40000 else none

/-- A price API stub whose response carries only the id ethereum. -/
def apiEthereumOnly : String → Option Rat :=
  fun t => if t = "ethereum" then some 2000 else none

/-- Claim C4: the claim states that lookup(normalize(k)) succeeds for
every supported chain key k and that lookup is case-insensitive, failing
with UnknownChain only for unsupported keys.  The code refutes the first
part at the registry key baseSepolia: validateChain lowercases its input
to basesepolia before indexing CHAINS, and basesepolia is absent from the
registry (whose key is mixed-case), so the supported key baseSepolia is
itself rejected with the UnknownChain message.  The other three registry
keys succeed case-insensitively and nonexistent fails with the message
listing the valid keys, as the claim states. -/
theorem validateChain_rejects_baseSepolia_registry_key :
    SingleChain.CHAINS.map Prod.fst = ["ethereum", "monad", "bsc", "baseSepolia"] ∧
    SingleChain.validateChain "baseSepolia"
      = Except.error
          "Chain \"baseSepolia\" not supported. Available chains: ethereum, monad, bsc, baseSepolia" ∧
    SingleChain.validateChain "ethereum" = Except.ok "ethereum" ∧
    SingleChain.validateChain "MONAD" = Except.ok "monad" ∧
    SingleChain.validateChain "Bsc" = Except.ok "bsc" ∧
    SingleChain.validateChain "nonexistent"
      = Except.error
          "Chain \"nonexistent\" not supported. Available chains: ethereum, monad, bsc, baseSepolia" := by
  decide

/-- Claim C8: disconnecting with no chain argument clears every bound
signer (the EVM map and the solana keypair), and a subsequent
getWalletAddress reports that no wallet is connected, for every prior
store state. -/
theorem disconnect_then_getWalletAddress_reports_none (t : MultiChain.MultiChainTools) :
    (MultiChain.DisconnectWalletTool.call t).2 = "All wallets disconnected successfully" ∧
    MultiChain.GetWalletAddressTool.call (MultiChain.DisconnectWalletTool.call t).1
      = "No wallets connected. Please connect your wallets first." ∧
    (∀ chain : String,
      ((MultiChain.DisconnectWalletTool.call t).1).getEvmWallet chain = none) ∧
    ((MultiChain.DisconnectWalletTool.call t).1).solanaKeypair = none := by
  exact ⟨rfl, rfl, fun _ => rfl, rfl⟩

/-- Claim C8, instantiated at the connected demo store. -/
theorem disconnect_then_getWalletAddress_reports_none_witness :
    MultiChain.GetWalletAddressTool.call (MultiChain.DisconnectWalletTool.call demoMultiTools).1
      = "No wallets connected. Please connect your wallets first." :=
  (disconnect_then_getWalletAddress_reports_none demoMultiTools).2.1

/-- Claim C3: the claim states that two independently configured sessions
never observe each other's bound signer.  The code refutes this: the
server instantiates one MultiChainTools (src/server/agent.ts:686) shared
by every tool of every request, so after a request of session A connects
an EVM key, a getAllBalances issued by session B runs against the same
store and reports one balance line per EVM chain for A's wallet, instead
of the no-wallets reply a run without A's connect produces. -/
theorem global_wallet_store_visible_across_requests :
    demoMultiTools
      = (MultiChain.MultiChainTools.init.setEvmWallets deriveDemo demoPrivateKey).1 ∧
    MultiChain.GetAllBalancesTool.call rpcDemo solRpcDemo MultiChain.MultiChainTools.init
      = Sum.inl "No wallets connected. Please connect your wallets first." ∧
    MultiChain.GetAllBalancesTool.call rpcDemo solRpcDemo demoMultiTools
      = Sum.inr
          [ MultiChain.BalanceLine.evmBalance "Monad Testnet" 1000000000000000000 "MONAD",
            MultiChain.BalanceLine.evmBalance "Ethereum Sepolia" 1000000000000000000 "ETH",
            MultiChain.BalanceLine.evmBalance "Base Sepolia" 1000000000000000000 "ETH",
            MultiChain.BalanceLine.evmBalance "Polygon Mumbai" 1000000000000000000 "MATIC",
            MultiChain.BalanceLine.evmBalance "Arbitrum Sepolia" 1000000000000000000 "ETH" ] ∧
    MultiChain.GetAllBalancesTool.call rpcDemo solRpcDemo demoMultiTools
      ≠ MultiChain.GetAllBalancesTool.call rpcDemo solRpcDemo MultiChain.MultiChainTools.init := by
  decide

/-- Claim C5 counterexample: smartTransfer does not validate amount
positivity.  With an EVM wallet bound, a well-formed recipient and the
amount 0, the extraction record is dispatched to transferEvm and
transferEvm submits a zero-value wallet.sendTransaction to the network
instead of failing with InvalidAmount before any network call. -/
theorem smartTransfer_amount_zero_reaches_network :
    MultiChain.SmartTransferTool.dispatch
        { amount := some "0", token := some "ETH", chain := none,
          recipient := some demoRecipient }
      = MultiChain.SmartTransferStep.evmTransfer "ethereum" demoRecipient "0" ∧
    MultiChain.SmartTransferTool.transferEvm demoMultiTools "ethereum" demoRecipient "0"
      = TransferAction.sendTransaction "ethereum" demoRecipient 0 := by
  decide

/-- Claim C9 counterexample: the batched getTokenPrices tool applies no
synonym table.  For the input ETH it queries the id eth (not ethereum),
so against an API response keyed by ethereum the output is a single
not-found line; the synonym table exists only in the single-token
getTokenPrice tool of the second variant. -/
theorem getTokenPrices_applies_no_synonym_table :
    MultiChain.getTokenPricesRequestIds "ETH" = "eth" ∧
    MultiChain.getTokenPricesLines apiEthereumOnly "ETH"
      = [MultiChain.PriceLine.notFound "ETH"] ∧
    SingleChain.getTokenPriceCoinId "ETH" = "ethereum" := by
  decide

/-- Claim C5 as amended: transferTokens rejects a malformed recipient with
the InvalidAddress reply and a non-positive (or unparseable) amount with
the InvalidAmount reply, both before any network call; smartTransfer
rejects a malformed recipient before any network call, but performs no
amount-positivity check (see the counterexample: amount 0 reaches the
network). -/
theorem transfer_validation_before_network_amended
    (t : SingleChain.BlockchainTools) (mt : MultiChain.MultiChainTools)
    (chain vc toAddr amount : String)
    (w : SingleChain.Wallet) (mw : MultiChain.Wallet)
    (hv : SingleChain.validateChain chain = Except.ok vc)
    (hw : t.getWallet vc = some w)
    (hmw : mt.getEvmWallet chain = some mw) :
    (isAddress toAddr = false →
      SingleChain.TransferTokensTool.call t chain toAddr amount
        = Except.ok (TransferAction.reply ("❌ Invalid recipient address: " ++ toAddr)) ∧
      MultiChain.SmartTransferTool.transferEvm mt chain toAddr amount
        = TransferAction.reply "Invalid recipient address provided.") ∧
    (isAddress toAddr = true → SingleChain.transferAmountInvalid amount = true →
      SingleChain.TransferTokensTool.call t chain toAddr amount
        = Except.ok (TransferAction.reply ("❌ Invalid amount: " ++ amount))) := by
  constructor
  · intro hAddr
    constructor
    · simp [SingleChain.TransferTokensTool.call, hv, hw, hAddr]
    · simp [MultiChain.SmartTransferTool.transferEvm, hmw, hAddr]
  · intro hAddr hAmt
    simp [SingleChain.TransferTokensTool.call, hv, hw, hAddr, hAmt]

/-- Claim C5 amended, instantiated: the malformed recipient
not-an-address is rejected by both tools before any network call. -/
theorem transfer_validation_before_network_amended_witness :
    SingleChain.TransferTokensTool.call demoTools "ethereum" "not-an-address" "0"
      = Except.ok (TransferAction.reply "❌ Invalid recipient address: not-an-address") ∧
    MultiChain.SmartTransferTool.transferEvm demoMultiTools "ethereum" "not-an-address" "0"
      = TransferAction.reply "Invalid recipient address provided." :=
  (transfer_validation_before_network_amended demoTools demoMultiTools
      "ethereum" "ethereum" "not-an-address" "0" demoWallet
      { privateKey := demoPrivateKey, address := demoAddress }
      (by decide) (by decide) (by decide)).1 (by decide)

/-- Claim C6: connecting a valid EVM private key derives one signer and
binds it to every EVM-family chain of the registry at once; getWalletAddress
(which takes no chain argument) then returns one address line per
EVM-family chain, all showing the same derived address. -/
theorem connectEvm_binds_every_evm_chain_same_address
    (derive : String → Option String) (t t2 : MultiChain.MultiChainTools)
    (pk addr : String)
    (hd : derive pk = some addr)
    (hsol : t.solanaKeypair = none)
    (ht2 : t2 = (MultiChain.MultiChainTools.setEvmWallets derive t pk).1) :
    t2.evmWallets.map Prod.fst = MultiChain.evmChainKeys ∧
    (∀ c ∈ MultiChain.evmChainKeys,
      t2.getEvmWallet c = some { privateKey := pk, address := addr }) ∧
    MultiChain.getWalletAddressLines t2
      = [ "Monad Testnet: " ++ addr, "Ethereum Sepolia: " ++ addr,
          "Base Sepolia: " ++ addr, "Polygon Mumbai: " ++ addr,
          "Arbitrum Sepolia: " ++ addr ] ∧
    MultiChain.GetWalletAddressTool.call t2
      = "Connected wallet addresses:\n"
        ++ intercalateStr "\n" (MultiChain.getWalletAddressLines t2) := by
  subst ht2
  refine ⟨?_, ?_, ?_, ?_⟩
  · simp only [MultiChain.MultiChainTools.setEvmWallets, hd]
    rfl
  · intro c hc
    fin_cases hc <;>
      simp [MultiChain.MultiChainTools.setEvmWallets, hd,
        MultiChain.MultiChainTools.getEvmWallet, MultiChain.evmChainKeys,
        MultiChain.CHAIN_CONFIGS, List.find?]
  · simp [MultiChain.MultiChainTools.setEvmWallets, hd, hsol,
      MultiChain.getWalletAddressLines, MultiChain.MultiChainTools.getEvmWallet,
      MultiChain.evmChainKeys, MultiChain.CHAIN_CONFIGS, List.find?]
  · simp [MultiChain.GetWalletAddressTool.call, MultiChain.getWalletAddressLines,
      MultiChain.MultiChainTools.setEvmWallets, hd, hsol,
      MultiChain.MultiChainTools.getEvmWallet,
      MultiChain.evmChainKeys, MultiChain.CHAIN_CONFIGS, List.find?]

/-- Claim C6, instantiated at the demo derivation and a fresh store. -/
theorem connectEvm_binds_every_evm_chain_same_address_witness :
    MultiChain.getWalletAddressLines demoMultiTools
      = [ "Monad Testnet: " ++ demoAddress, "Ethereum Sepolia: " ++ demoAddress,
          "Base Sepolia: " ++ demoAddress, "Polygon Mumbai: " ++ demoAddress,
          "Arbitrum Sepolia: " ++ demoAddress ] :=
  (connectEvm_binds_every_evm_chain_same_address deriveDemo
    MultiChain.MultiChainTools.init demoMultiTools demoPrivateKey demoAddress
    rfl rfl rfl).2.2.1

/-- Claim C7: every state-changing operation of the session wallet store
preserves the one-signer-per-family invariant: setEvmWallets always
leaves every EVM chain bound to the same single credential, the other
operations preserve that property, and the non-EVM family holds at most
one keypair in every state (its field is an option).  The only mutations
any tool performs go through these three operations. -/
theorem wallet_store_one_signer_per_family :
    MultiChain.evmSingleCredential MultiChain.MultiChainTools.init = true ∧
    (∀ (derive : String → Option String) (t : MultiChain.MultiChainTools) (pk : String),
      MultiChain.evmSingleCredential
        ((MultiChain.MultiChainTools.setEvmWallets derive t pk).1) = true) ∧
    (∀ (parse : String → Option MultiChain.SolKeypair)
        (t : MultiChain.MultiChainTools) (pk : String),
      MultiChain.evmSingleCredential t = true →
      MultiChain.evmSingleCredential
        ((MultiChain.MultiChainTools.setSolanaKeypair parse t pk).1) = true) ∧
    (∀ t : MultiChain.MultiChainTools,
      MultiChain.evmSingleCredential (MultiChain.MultiChainTools.clearWallets t) = true) ∧
    (∀ t : MultiChain.MultiChainTools, (MultiChain.solanaSigners t).length ≤ 1) := by
  refine ⟨rfl, ?_, ?_, fun _ => rfl, ?_⟩
  · intro derive t pk
    cases hd : derive pk with
    | none =>
        simp [MultiChain.MultiChainTools.setEvmWallets, hd, MultiChain.evmSingleCredential]
    | some addr =>
        simp [MultiChain.MultiChainTools.setEvmWallets, hd, MultiChain.evmSingleCredential,
          MultiChain.evmChainKeys, MultiChain.CHAIN_CONFIGS]
  · intro parse t pk h
    cases hp : parse pk with
    | none => simpa [MultiChain.MultiChainTools.setSolanaKeypair, hp,
        MultiChain.evmSingleCredential] using h
    | some kp => simpa [MultiChain.MultiChainTools.setSolanaKeypair, hp,
        MultiChain.evmSingleCredential] using h
  · intro t
    obtain ⟨evm, sol⟩ := t
    cases sol <;> simp [MultiChain.solanaSigners]

/-- Claim C7, instantiated: connecting a solana keypair on top of the
connected demo store keeps the invariant. -/
theorem wallet_store_one_signer_per_family_witness :
    MultiChain.evmSingleCredential
      ((MultiChain.MultiChainTools.setSolanaKeypair parseSolDemo demoMultiTools "secret").1)
      = true :=
  wallet_store_one_signer_per_family.2.2.1 parseSolDemo demoMultiTools "secret" (by decide)

/-- Claim C10: when the extraction step yields no chain (null or empty),
smartTransfer infers the target chain from the token symbol — SOL selects
solana, MONAD selects monad, MATIC selects polygon — defaulting to
ethereum in every other case, and dispatches the transfer to that chain
rather than replying with a clarification request. -/
theorem smartTransfer_chain_inference (p : MultiChain.ParsedTransfer)
    (hA : MultiChain.jsFalsy p.amount = false)
    (hR : MultiChain.jsFalsy p.recipient = false)
    (hC : p.chain = none ∨ p.chain = some "") :
    ((p.token.map upperStr = some "SOL") →
      MultiChain.smartTransferTargetChain p.chain p.token = "solana" ∧
      MultiChain.SmartTransferTool.dispatch p
        = MultiChain.SmartTransferStep.solanaTransfer (p.recipient.getD "") (p.amount.getD "")) ∧
    ((p.token.map upperStr = some "MONAD") →
      MultiChain.smartTransferTargetChain p.chain p.token = "monad" ∧
      MultiChain.SmartTransferTool.dispatch p
        = MultiChain.SmartTransferStep.evmTransfer "monad" (p.recipient.getD "") (p.amount.getD "")) ∧
    ((p.token.map upperStr = some "MATIC") →
      MultiChain.smartTransferTargetChain p.chain p.token = "polygon" ∧
      MultiChain.SmartTransferTool.dispatch p
        = MultiChain.SmartTransferStep.evmTransfer "polygon" (p.recipient.getD "") (p.amount.getD "")) ∧
    (p.token.map upperStr ≠ some "SOL" →
      p.token.map upperStr ≠ some "MONAD" →
      p.token.map upperStr ≠ some "MATIC" →
      MultiChain.smartTransferTargetChain p.chain p.token = "ethereum" ∧
      MultiChain.SmartTransferTool.dispatch p
        = MultiChain.SmartTransferStep.evmTransfer "ethereum" (p.recipient.getD "") (p.amount.getD "")) := by
  have hdisp : ∀ s : String, MultiChain.smartTransferTargetChain p.chain p.token = s →
      MultiChain.SmartTransferTool.dispatch p
        = (if s == "solana" then
            MultiChain.SmartTransferStep.solanaTransfer (p.recipient.getD "") (p.amount.getD "")
          else
            MultiChain.SmartTransferStep.evmTransfer s (p.recipient.getD "") (p.amount.getD "")) := by
    intro s hs
    simp [MultiChain.SmartTransferTool.dispatch, hA, hR, hs]
  have htc0 : MultiChain.smartTransferTargetChain p.chain p.token
      = (if (p.token.map upperStr) == some "SOL" then "solana"
         else if (p.token.map upperStr) == some "MONAD" then "monad"
         else if (p.token.map upperStr) == some "MATIC" then "polygon"
         else "ethereum") := by
    rcases hC with hC | hC <;>
      simp [MultiChain.smartTransferTargetChain, hC, show lowerStr "" = "" from rfl]
  refine ⟨fun hTok => ?_, fun hTok => ?_, fun hTok => ?_, fun h1 h2 h3 => ?_⟩
  · have hs : MultiChain.smartTransferTargetChain p.chain p.token = "solana" := by
      rw [htc0, hTok]; decide
    exact ⟨hs, by rw [hdisp _ hs]; simp⟩
  · have hs : MultiChain.smartTransferTargetChain p.chain p.token = "monad" := by
      rw [htc0, hTok]; decide
    exact ⟨hs, by rw [hdisp _ hs]; simp⟩
  · have hs : MultiChain.smartTransferTargetChain p.chain p.token = "polygon" := by
      rw [htc0, hTok]; decide
    exact ⟨hs, by rw [hdisp _ hs]; simp⟩
  · have hs : MultiChain.smartTransferTargetChain p.chain p.token = "ethereum" := by
      rw [htc0]
      simp [h1, h2, h3]
    exact ⟨hs, by rw [hdisp _ hs]; simp⟩

/-- Claim C10, instantiated: token SOL with no extracted chain selects
solana. -/
theorem smartTransfer_chain_inference_witness :
    MultiChain.smartTransferTargetChain none (some "SOL") = "solana" ∧
    MultiChain.SmartTransferTool.dispatch
        { amount := some "1", token := some "SOL", chain := none,
          recipient := some demoRecipient }
      = MultiChain.SmartTransferStep.solanaTransfer demoRecipient "1" :=
  (smartTransfer_chain_inference
    { amount := some "1", token := some "SOL", chain := none,
      recipient := some demoRecipient }
    (by decide) (by decide) (Or.inl rfl)).1 (by decide)

/-- Claim C9 as amended: getTokenPrices lowercases, splits and trims the
comma-separated identifiers and issues them in one batched query with no
synonym mapping (see the counterexample); the output has exactly one line
per identifier, in order, each identifier absent from the API response
yielding its own not-found line and each resolved identifier a priced
line.  In particular, bitcoin,doesnotexist against an API response
holding only bitcoin produces exactly one priced line and one not-found
line. -/
theorem getTokenPrices_batched_per_token_lines (tokens : String) (api : String → Option Rat) :
    (MultiChain.getTokenPricesLines api tokens).length
      = (MultiChain.getTokenPricesTokenList tokens).length ∧
    (∀ (i : Nat) (token : String),
      (MultiChain.getTokenPricesTokenList tokens)[i]? = some token →
      api token = none →
      (MultiChain.getTokenPricesLines api tokens)[i]?
        = some (MultiChain.PriceLine.notFound (upperStr token))) ∧
    (∀ (i : Nat) (token : String) (p : Rat),
      (MultiChain.getTokenPricesTokenList tokens)[i]? = some token →
      api token = some p → p ≠ 0 →
      (MultiChain.getTokenPricesLines api tokens)[i]?
        = some (MultiChain.PriceLine.priced (upperStr token) p)) ∧
    MultiChain.getTokenPricesLines apiBitcoinOnly "bitcoin,doesnotexist"
      = [MultiChain.PriceLine.priced "BITCOIN" 40000,
         MultiChain.PriceLine.notFound "DOESNOTEXIST"] ∧
    MultiChain.getTokenPricesRequestIds "bitcoin,doesnotexist" = "bitcoin,doesnotexist" := by
  refine ⟨?_, ?_, ?_, by decide, by decide⟩
  · simp [MultiChain.getTokenPricesLines]
  · intro i token htok hapi
    simp [MultiChain.getTokenPricesLines, List.getElem?_map, htok, hapi]
  · intro i token p htok hapi hp
    simp [MultiChain.getTokenPricesLines, List.getElem?_map, htok, hapi, hp]

/-- Claim C9 as amended, instantiated at the claimed scenario. -/
theorem getTokenPrices_batched_per_token_lines_witness :
    MultiChain.getTokenPricesLines apiBitcoinOnly "bitcoin,doesnotexist"
      = [MultiChain.PriceLine.priced "BITCOIN" 40000,
         MultiChain.PriceLine.notFound "DOESNOTEXIST"] :=
  (getTokenPrices_batched_per_token_lines "bitcoin,doesnotexist" apiBitcoinOnly).2.2.2.1

/-- Claim C2: the claim states the dispatch loop terminates within a
configured maximum tool-invocation round count even against a model that
requests a tool in every round.  The code refutes this: shouldContinue
routes to the tools node whenever the last message carries tool calls and
the graph holds no round counter, so against an always-tool model the
loop has not reached END after any number of rounds — it never
force-terminates with a degraded answer. -/
theorem dispatch_loop_has_no_round_cap
    (model : List MultiChain.Message → MultiChain.Message)
    (execTool : MultiChain.ToolCall → String)
    (hmodel : ∀ ms, (model ms).toolCallsOf ≠ []) :
    ∀ (fuel : Nat) (messages : List MultiChain.Message),
      ∃ ms2, MultiChain.runWorkflow model execTool fuel messages
        = MultiChain.LoopResult.stillRunning ms2 := by
  intro fuel
  induction fuel with
  | zero => exact fun messages => ⟨messages, rfl⟩
  | succ n ih =>
      intro messages
      have h := hmodel messages
      cases hr : model messages with
      | system c => rw [hr] at h; exact absurd rfl h
      | human c => rw [hr] at h; exact absurd rfl h
      | tool c => rw [hr] at h; exact absurd rfl h
      | ai c calls =>
          rw [hr] at h
          have hlen : 0 < calls.length :=
            List.length_pos.mpr (fun hnil => h (by simpa [MultiChain.Message.toolCallsOf] using hnil))
          have hstep : MultiChain.runWorkflow model execTool (n + 1) messages
              = MultiChain.runWorkflow model execTool n
                  ((messages ++ [MultiChain.Message.ai c calls])
                    ++ (MultiChain.Message.ai c calls).toolCallsOf.map
                        (fun tc => MultiChain.Message.tool (execTool tc))) := by
            simp only [MultiChain.runWorkflow, hr, MultiChain.shouldContinue,
              List.getLast?_concat]
            rw [if_pos hlen]
          rw [hstep]
          exact ih _

/-- Claim C2, instantiated: after ten rounds against the always-tool
model stub the loop is still running. -/
theorem dispatch_loop_has_no_round_cap_witness :
    ∃ ms2, MultiChain.runWorkflow modelAlwaysTool execToolDemo 10 []
      = MultiChain.LoopResult.stillRunning ms2 :=
  dispatch_loop_has_no_round_cap modelAlwaysTool execToolDemo
    (fun _ => by simp [modelAlwaysTool, MultiChain.Message.toolCallsOf]) 10 []

/-- jsonEscapeList distributes over list append. -/
theorem jsonEscapeList_append (l1 l2 : List Char) :
    SingleChain.jsonEscapeList (l1 ++ l2)
      = SingleChain.jsonEscapeList l1 ++ SingleChain.jsonEscapeList l2 := by
  induction l1 with
  | nil => rfl
  | cons c cs ih => simp [SingleChain.jsonEscapeList, ih, String.append_assoc]

/-- A string of characters that escape to themselves is its own JSON
escape. -/
theorem jsonEscapeList_of_plain (l : List Char)
    (h : ∀ c ∈ l, SingleChain.jsonEscapeChar c = String.singleton c) :
    SingleChain.jsonEscapeList l = String.mk l := by
  induction l with
  | nil => rfl
  | cons c cs ih =>
      have hc := h c (List.mem_cons_self c cs)
      have ihh := ih (fun x hx => h x (List.mem_cons_of_mem _ hx))
      show SingleChain.jsonEscapeChar c ++ SingleChain.jsonEscapeList cs = String.mk (c :: cs)
      rw [hc, ihh]
      rfl

/-- Claim C1: the claim states that private-key material is never logged
and only the derived address appears in log output.  The code refutes
this: for every request carrying a (truthy) private key, agentHandler
builds a setWallet message embedding the raw key and invokeAgent then
writes the JSON serialization of every message content to the log, so
the raw key appears verbatim in the logged string (stated here for keys
whose characters need no JSON escaping, which covers every hexadecimal
key). -/
theorem invokeAgent_logs_connect_private_key (input pk : String)
    (hpk : pk ≠ "")
    (hplain : ∀ c ∈ pk.data, SingleChain.jsonEscapeChar c = String.singleton c) :
    ∃ a b : String,
      SingleChain.invokeAgentLoggedMessages (SingleChain.agentHandlerMessages input (some pk))
        = a ++ pk ++ b := by
  have hmsgs : SingleChain.agentHandlerMessages input (some pk)
      = ["setWallet " ++ pk ++ " "
          ++ (SingleChain.chainKeywordMatch (lowerStr input)).getD "baseSepolia", input] := by
    simp [SingleChain.agentHandlerMessages, hpk]
  have hescpk : SingleChain.jsonEscapeList pk.data = pk := by
    rw [jsonEscapeList_of_plain pk.data hplain]
  refine ⟨"invokeAgent messages: " ++ "[\n" ++ "  \""
            ++ SingleChain.jsonEscapeList ("setWallet ").data,
          SingleChain.jsonEscapeList ((" ").data
              ++ ((SingleChain.chainKeywordMatch (lowerStr input)).getD "baseSepolia").data)
            ++ "\"" ++ ",\n" ++ "  \"" ++ SingleChain.jsonEscape input ++ "\"" ++ "\n]", ?_⟩
  rw [hmsgs]
  apply String.ext
  simp only [SingleChain.invokeAgentLoggedMessages, SingleChain.jsonStringifyIndent2,
    intercalateStr, List.map_cons, List.map_nil, SingleChain.jsonEscape,
    String.data_append, jsonEscapeList_append, hescpk, List.append_assoc]

/-- Claim C1, instantiated at a concrete request carrying a hexadecimal
private key. -/
theorem invokeAgent_logs_connect_private_key_witness :
    ∃ a b : String,
      SingleChain.invokeAgentLoggedMessages
          (SingleChain.agentHandlerMessages "what is my balance" (some demoPrivateKey))
        = a ++ demoPrivateKey ++ b :=
  invokeAgent_logs_connect_private_key "what is my balance" demoPrivateKey
    (by decide) (by decide)

end Nexis
